import Mathlib

set_option maxRecDepth 40000
set_option maxHeartbeats 4000000
set_option exponentiation.threshold 1100

/-!
Verification of the `thor_offroading` dashboard asset generators.

The repository consists of straight-line Python scripts (`real2.py`,
`try.py`, `turn.py`, `ii.py`) that compute drawing parameters from
hard-coded constants and loop indices and save PNG images.  This file
gives a shallow embedding of the computations and the file-output trace:

* Python `int` arithmetic is `Nat`/`Int`;
* Python `float` values are exact binary fractions; `float` division
  and multiplication are modelled bit-accurately as exact fraction
  arithmetic (`Frac`) followed by `floatRound`, IEEE-754 binary64
  round-to-nearest (ties to even).  The `OverflowError` that CPython's
  `int / int` division raises when the rounded quotient reaches
  magnitude `2 ^ 1024` is modelled in `pyDiv`; subnormal magnitudes
  are not modelled (no value a comparison or truncation here observes
  comes near them);
* `int(x)` on a float is truncation toward zero (`Frac.trunc`);
* a Python expression that can raise becomes an `Option`/`Except` value;
* each `img.save(path)` call becomes one `SavedImage` record (folder,
  file name, pixel width, pixel height) appended to a trace list;
  text-rendering calls affect no stated property and are not recorded.
-/

/-! ## Exact fraction arithmetic and binary64 rounding -/

/-- An exact fraction with a positive denominator (not necessarily in
lowest terms).  Every Python float value handled by the scripts is an
exact binary fraction, represented here exactly. -/
structure Frac where
  num : ℤ
  den : ℕ
  den_pos : 0 < den

namespace Frac

/-- The exact rational value of a fraction (for stating lemmas). -/
def toRat (f : Frac) : ℚ := (f.num : ℚ) / (f.den : ℚ)

/-- Embed an integer. -/
def ofInt (n : ℤ) : Frac := ⟨n, 1, Nat.one_pos⟩

/-- Exact sum. -/
def add (a b : Frac) : Frac :=
  ⟨a.num * b.den + b.num * a.den, a.den * b.den, Nat.mul_pos a.den_pos b.den_pos⟩

/-- Exact product. -/
def mul (a b : Frac) : Frac :=
  ⟨a.num * b.num, a.den * b.den, Nat.mul_pos a.den_pos b.den_pos⟩

/-- Exact quotient; `none` models Python's `ZeroDivisionError`. -/
def div (a b : Frac) : Option Frac :=
  if hb : b.num = 0 then none
  else some ⟨(if b.num < 0 then -a.num else a.num) * b.den,
             a.den * b.num.natAbs,
             Nat.mul_pos a.den_pos (Int.natAbs_pos.mpr hb)⟩

/-- Strict comparison of exact values (cross multiplication). -/
def lt (a b : Frac) : Prop := a.num * b.den < b.num * a.den

instance (a b : Frac) : Decidable (lt a b) := Int.decLt _ _

/-- Python `int(x)`: truncation toward zero. -/
def trunc (f : Frac) : ℤ :=
  if f.num < 0 then -((-f.num) / (f.den : ℤ)) else f.num / (f.den : ℤ)

end Frac

/-- Floor of the base-2 logarithm of `n` (for `n ≥ 1`), by structural
recursion on a fuel argument so that the kernel can evaluate it; the
third argument accumulates the result so every call is a tail call
and evaluation needs only constant stack. -/
def log2fuel : Nat → Nat → Nat → Nat
  | 0, _, acc => acc
  | fuel + 1, n, acc => if n ≤ 1 then acc else log2fuel fuel (n / 2) (acc + 1)

/-- Floor of the base-2 logarithm of the positive fraction `a / b`,
computed by scaling the fraction up by `2 ^ 200` first.  Correct for
magnitudes in `[2 ^ (-200), 2 ^ 1800)`, which covers every float this
program builds and reaches comfortably past the binary64 overflow
threshold `2 ^ 1024`. -/
def ratExp2 (a b : ℕ) : ℤ :=
  (log2fuel 2000 ((a * Nat.pow 2 200) / b) 0 : ℤ) - 200

/-- IEEE-754 binary64 rounding of an exact value: round to nearest,
ties to even, 53-bit significand.  Subnormals and overflow are not
modelled (no value in this program comes near either range). -/
def floatRound (q : Frac) : Frac :=
  if q.num = 0 then Frac.ofInt 0
  else
    let a : ℕ := q.num.natAbs
    let b : ℕ := q.den
    let e : ℤ := ratExp2 a b
    let k : ℤ := 52 - e
    let sn : ℕ := if 0 ≤ k then a * Nat.pow 2 k.toNat else a
    let sd : ℕ := if 0 ≤ k then b else b * Nat.pow 2 (-k).toNat
    let m : ℕ := sn / sd
    let twiceRem : ℕ := 2 * (sn % sd)
    let mr : ℕ :=
      if twiceRem < sd then m
      else if sd < twiceRem then m + 1
      else if m % 2 = 0 then m else m + 1
    let mag : ℤ := if q.num < 0 then -(mr : ℤ) else (mr : ℤ)
    if h : 0 ≤ k then
      ⟨mag, Nat.pow 2 k.toNat, Nat.pos_pow_of_pos _ (by decide)⟩
    else
      ⟨mag * Nat.pow 2 (-k).toNat, 1, Nat.one_pos⟩

/-- Whether a rounded value lies beyond the largest binary64
magnitude.  CPython's `int / int` true division raises
`OverflowError` exactly when the correctly rounded (ties-to-even)
quotient reaches magnitude `2 ^ 1024`: the midpoint
`2 ^ 1024 - 2 ^ 970` already raises (the tie rounds up to the even
significand), while anything below it yields the largest finite
double. -/
def Frac.isOverflow (f : Frac) : Bool :=
  decide (Nat.pow 2 1024 * f.den ≤ f.num.natAbs)

/-- Python float division `a / b` of exact operands: `none` models a
raised exception — `ZeroDivisionError` for `b = 0`, `OverflowError`
when the correctly rounded quotient exceeds the binary64 range —
otherwise the correctly rounded quotient. -/
def pyDiv (a b : Frac) : Option Frac :=
  match Frac.div a b with
  | none => none
  | some q =>
    let r := floatRound q
    if r.isOverflow then none else some r

/-- Python float multiplication of two exactly-represented operands. -/
def pyMul (a b : Frac) : Frac := floatRound (Frac.mul a b)

example : (pyDiv (.ofInt 29) (.ofInt 100)).map (fun x => Frac.trunc (pyMul x (.ofInt 200)))
    = some 57 := by decide
example : (pyDiv (.ofInt 30) (.ofInt 100)).map (fun x => Frac.trunc (pyMul x (.ofInt 200)))
    = some 60 := by decide

/-! ## Colors (`real2.py` lines 29–38) -/

/-- RGB color triple as used throughout `real2.py`. -/
structure RGB where
  r : Nat
  g : Nat
  b : Nat
deriving DecidableEq, Repr

def BG : RGB := ⟨0, 0, 0⟩
def BLACK : RGB := ⟨0, 0, 0⟩
def WHITE : RGB := ⟨255, 255, 255⟩
def GREEN : RGB := ⟨0, 220, 120⟩
def YELLOW : RGB := ⟨255, 200, 0⟩
def ORANGE : RGB := ⟨255, 140, 0⟩
def RED : RGB := ⟨220, 50, 50⟩
def GRAY : RGB := ⟨120, 120, 120⟩
def BLUE : RGB := ⟨0, 150, 255⟩
def CYAN : RGB := ⟨0, 200, 200⟩

/-! ## Helper functions (`real2.py` lines 49–57) -/

/-- Embedding of `get_temp_color(temp, max_temp=80)`: `ratio = temp /
max_temp` (float division, raising `ZeroDivisionError` when `max_temp`
is zero, modelled as `none`), then the threshold cascade `ratio < 0.5 →
GREEN`, `ratio < 0.75 → YELLOW`, else `RED`.  The float literals `0.5`
and `0.75` are exactly representable and appear as the fractions
`1/2` and `3/4`. -/
def get_temp_color (temp : ℤ) (max_temp : ℤ := 80) : Option RGB :=
  match pyDiv (.ofInt temp) (.ofInt max_temp) with
  | none => none
  | some ratio =>
    some (if ratio.lt ⟨1, 2, by decide⟩ then GREEN
          else if ratio.lt ⟨3, 4, by decide⟩ then YELLOW
          else RED)

example : get_temp_color 30 100 = some GREEN := by decide
example : get_temp_color 49 100 = some GREEN := by decide
example : get_temp_color 50 100 = some YELLOW := by decide
example : get_temp_color 74 100 = some YELLOW := by decide
example : get_temp_color 75 100 = some RED := by decide
example : get_temp_color 150 100 = some RED := by decide
example : get_temp_color (-7) 100 = some GREEN := by decide
example : get_temp_color 5 0 = none := by decide

/-! ## Speed gauge computations (`real2.py` lines 63–105) -/

/-- Speed arc color (`real2.py` lines 73–78). -/
def speedColor (v : Nat) : RGB :=
  if v < 40 then GREEN else if v < 60 then YELLOW else RED

/-- Speed arc sweep angle, `angle = int(270 * v / SPEED_MAX)` with
`SPEED_MAX = 80` (`real2.py` line 81): integer product, float
division, truncation. -/
def speedArcAngle (v : Nat) : ℤ :=
  ((pyDiv (.ofInt (270 * v)) (.ofInt 80)).map Frac.trunc).getD 0

example : speedArcAngle 0 = 0 := by decide
example : speedArcAngle 1 = 3 := by decide
example : speedArcAngle 40 = 135 := by decide
example : speedArcAngle 80 = 270 := by decide

/-! ## SOC bar computations (`real2.py` lines 186–216) -/

/-- SOC fill color (`real2.py` lines 196–202). -/
def socFillColor (s : Nat) : RGB :=
  if s > 60 then GREEN else if s > 20 then YELLOW else RED

/-- SOC fill width, `fill_width = int((s/100) * 200)` (`real2.py`
line 205): float division, float multiplication, truncation. -/
def socFillWidth (s : Nat) : ℤ :=
  ((pyDiv (.ofInt s) (.ofInt 100)).map
    (fun x => Frac.trunc (pyMul x (.ofInt 200)))).getD 0

example : socFillWidth 0 = 0 := by decide
example : socFillWidth 29 = 57 := by decide
example : socFillWidth 30 = 60 := by decide
example : socFillWidth 100 = 200 := by decide

/-- Drawing command issued against a PIL `ImageDraw` object.  Only the
geometric commands of the SOC frame are needed by the claims; text
rendering depends on font metrics and is not modelled. -/
inductive DrawCmd where
  | rectOutline (x0 y0 x1 y1 : ℤ) (color : RGB) (lineWidth : Nat)
  | rectFill (x0 y0 x1 y1 : ℤ) (color : RGB)
deriving DecidableEq, Repr

/-- Geometric drawing commands of one SOC frame (`real2.py` lines
188–207, loop body for charge level `s`): battery outline, battery
terminal, then the fill bar — drawn only when `fill_width > 0`. -/
def socFrameCmds (s : Nat) : List DrawCmd :=
  [.rectOutline 10 20 220 60 WHITE 4,
   .rectFill 220 30 230 50 WHITE]
  ++ (if socFillWidth s > 0 then
        [.rectFill 15 25 (15 + socFillWidth s) 55 (socFillColor s)]
      else [])

example : socFrameCmds 0 = [.rectOutline 10 20 220 60 WHITE 4, .rectFill 220 30 230 50 WHITE] := by
  decide
example : .rectFill 15 25 215 55 GREEN ∈ socFrameCmds 100 := by decide

/-! ## File-output trace of `real2.py` -/

/-- Decimal digit character. -/
def digitChar (n : Nat) : Char := Char.ofNat (48 + n)

/-- Decimal digits of `n` (fuel-driven so the kernel can evaluate). -/
def natDigits : Nat → Nat → List Char
  | 0, _ => []
  | fuel + 1, n =>
    if n < 10 then [digitChar n]
    else natDigits fuel (n / 10) ++ [digitChar (n % 10)]

/-- Decimal string of `n`. -/
def natStr (n : Nat) : String := String.mk (natDigits 30 n)

/-- Python format `f"{n:0w}"`: the decimal string of `n`, left-padded
with zeros to at least `w` characters. -/
def zfill (w : Nat) (n : Nat) : String :=
  String.mk (List.replicate (w - (natStr n).length) '0') ++ natStr n

example : zfill 3 0 = "000" := by decide
example : zfill 3 80 = "080" := by decide
example : zfill 2 16 = "16" := by decide

/-- One `img.save(...)` call: destination folder under `dgus_assets/`,
file name, and the pixel dimensions the image was created with. -/
structure SavedImage where
  folder : String
  file : String
  width : Nat
  height : Nat
deriving DecidableEq, Repr

/-- Full path of a saved image. -/
def SavedImage.path (f : SavedImage) : String :=
  "dgus_assets/" ++ f.folder ++ "/" ++ f.file

/-- Speed gauge pass (`real2.py` lines 65–105): one 200×200 frame per
`v` in `range(SPEED_MAX + 1)`, saved as `speed/{v:03}.png`. -/
def speedFiles : List SavedImage :=
  (List.range 81).map fun v => ⟨"speed", zfill 3 v ++ ".png", 200, 200⟩

/-- RPM gauge pass (`real2.py` lines 109–148): one 200×200 frame per
`i` in `range(17)`, saved as `rpm/{i:02}.png`. -/
def rpmFiles : List SavedImage :=
  (List.range 17).map fun i => ⟨"rpm", zfill 2 i ++ ".png", 200, 200⟩

/-- One temperature-bar pass (`real2.py` lines 152–180,
`temp_bar_enhanced`): one 80×220 frame per `t` in `range(101)`. -/
def tempFiles (folder : String) : List SavedImage :=
  (List.range 101).map fun t => ⟨folder, zfill 3 t ++ ".png", 80, 220⟩

/-- SOC pass (`real2.py` lines 188–216): one 240×80 frame per `s` in
`range(101)`. -/
def socFiles : List SavedImage :=
  (List.range 101).map fun s => ⟨"soc", zfill 3 s ++ ".png", 240, 80⟩

/-- One voltage/current bar pass (`real2.py` lines 220–237,
`vi_bar_enhanced`): one 240×70 frame per `v` in `range(max_val + 1)`. -/
def viFiles (folder : String) (maxVal : Nat) : List SavedImage :=
  (List.range (maxVal + 1)).map fun v => ⟨folder, zfill 3 v ++ ".png", 240, 70⟩

/-- Charging pass (`real2.py` lines 244–267): the four animated 100×100
frames `charging_0 … charging_3`, then frame 0 of the discharging
animation saved as `discharging.png`. -/
def chargingFiles : List SavedImage :=
  ((List.range 4).map fun i => ⟨"charging", "charging_" ++ natStr i ++ ".png", 100, 100⟩)
  ++ [⟨"charging", "discharging.png", 100, 100⟩]

/-- Indicator pass (`real2.py` lines 271–308): three animated 140×100
frames per direction, then the two static off states. -/
def indicatorFiles : List SavedImage :=
  ((List.range 3).map fun i => ⟨"indicators", "left_" ++ natStr i ++ ".png", 140, 100⟩)
  ++ ((List.range 3).map fun i => ⟨"indicators", "right_" ++ natStr i ++ ".png", 140, 100⟩)
  ++ [⟨"indicators", "left_off.png", 140, 100⟩, ⟨"indicators", "right_off.png", 140, 100⟩]

/-- Warning pass (`real2.py` lines 312–336): five 100×100 icons, in the
insertion order of the `warnings` dict. -/
def warningFiles : List SavedImage :=
  ["battery_low", "overheat", "motor_fault", "brake", "abs"].map
    fun n => ⟨"warnings", n ++ ".png", 100, 100⟩

/-- The complete ordered file-output trace of a completed `real2.py`
run: every `img.save` call, top to bottom. -/
def real2Trace : List SavedImage :=
  speedFiles ++ rpmFiles
  ++ tempFiles "temp_motor" ++ tempFiles "temp_controller" ++ tempFiles "temp_battery"
  ++ socFiles ++ viFiles "battery_vi" 100 ++ viFiles "motor_vi" 150
  ++ chargingFiles ++ indicatorFiles ++ warningFiles

example : real2Trace.length = 81 + 17 + 303 + 101 + 101 + 151 + 5 + 8 + 5 := by decide
example : (⟨"speed", "000.png", 200, 200⟩ : SavedImage) ∈ real2Trace := by decide
example : (SavedImage.path ⟨"speed", "000.png", 200, 200⟩) = "dgus_assets/speed/000.png" := by
  decide

/-! ## Font loading (`real2.py` lines 41–46, `try.py` lines 147–161) -/

/-- A PIL font handle: either a TrueType font or the library's default
bitmap font (`ImageFont.load_default()`). -/
inductive PILFont where
  | truetypeFont (name : String) (size : Nat)
  | defaultFont
deriving DecidableEq, Repr

/-- The exception `ImageFont.truetype` raises when the font resource
cannot be opened (an `OSError`; `IOError` is the same class). -/
inductive PILError where
  | oSError
deriving DecidableEq, Repr

/-- `ImageFont.truetype(name, size)`: succeeds when the font resource
is available, raises `OSError` otherwise. -/
def truetype (fontAvailable : Bool) (name : String) (size : Nat) :
    Except PILError PILFont :=
  if fontAvailable then .ok (.truetypeFont name size) else .error .oSError

/-- The three font handles of `real2.py`. -/
structure Real2Fonts where
  font_big : PILFont
  font_med : PILFont
  font_small : PILFont
deriving DecidableEq, Repr

/-- Font loading of `real2.py` lines 41–46: three `truetype` calls in a
`try` block whose bare `except` assigns `ImageFont.load_default()` to
all three handles. -/
def loadFontsReal2 (fontAvailable : Bool) : Except PILError Real2Fonts :=
  match (do
      let b ← truetype fontAvailable "DejaVuSans-Bold.ttf" 48
      let m ← truetype fontAvailable "DejaVuSans-Bold.ttf" 36
      let s ← truetype fontAvailable "DejaVuSans-Bold.ttf" 24
      pure (Real2Fonts.mk b m s) : Except PILError Real2Fonts) with
  | .ok f => .ok f
  | .error _ => .ok ⟨.defaultFont, .defaultFont, .defaultFont⟩

/-- The two font handles of `try.py`'s `AssetGenerator`. -/
structure TryFonts where
  font_big : PILFont
  font_med : PILFont
deriving DecidableEq, Repr

/-- `AssetGenerator._load_fonts` (`try.py` lines 147–161): two
`truetype` calls with `FONT_NAME = "DejaVuSans-Bold.ttf"` and sizes
36 and 26; `except (OSError, IOError)` assigns the default font to
both handles. -/
def loadFontsTry (fontAvailable : Bool) : Except PILError TryFonts :=
  match (do
      let b ← truetype fontAvailable "DejaVuSans-Bold.ttf" 36
      let m ← truetype fontAvailable "DejaVuSans-Bold.ttf" 26
      pure (TryFonts.mk b m) : Except PILError TryFonts) with
  | .ok f => .ok f
  | .error PILError.oSError => .ok ⟨.defaultFont, .defaultFont⟩

example : loadFontsReal2 false = .ok ⟨.defaultFont, .defaultFont, .defaultFont⟩ := rfl
example : loadFontsTry false = .ok ⟨.defaultFont, .defaultFont⟩ := rfl

/-! ## File-output trace of `try.py` (`AssetGenerator.generate_all`) -/

/-- `create_background` (`try.py` lines 167–206): one canvas of
`CANVAS_WIDTH × CANVAS_HEIGHT = 1024 × 600`. -/
def tryBackgroundFiles : List SavedImage :=
  [⟨"background", "dashboard_bg.png", 1024, 600⟩]

/-- `create_labels` (`try.py` lines 212–236): seven 260×50 labels. -/
def tryLabelFiles : List SavedImage :=
  ["speed.png", "rpm.png", "temp_motor.png", "temp_controller.png",
   "temp_battery.png", "battery.png", "motor.png"].map
    fun n => ⟨"labels", n, 260, 50⟩

/-- `create_indicators` (`try.py` lines 242–272): four 120×80 arrows. -/
def tryIndicatorFiles : List SavedImage :=
  ["left_off", "left_on", "right_off", "right_on"].map
    fun n => ⟨"indicators", n ++ ".png", 120, 80⟩

/-- `create_warnings` (`try.py` lines 278–297): two 100×90 icons. -/
def tryWarningFiles : List SavedImage :=
  ["warning_off.png", "warning_on.png"].map fun n => ⟨"warning", n, 100, 90⟩

/-- `create_bars` (`try.py` lines 303–335): two 50×200 temperature bars
and two 200×40 SOC bars. -/
def tryBarFiles : List SavedImage :=
  [⟨"bars", "temp_bar_empty.png", 50, 200⟩, ⟨"bars", "temp_bar_fill.png", 50, 200⟩,
   ⟨"bars", "soc_bar_empty.png", 200, 40⟩, ⟨"bars", "soc_bar_fill.png", 200, 40⟩]

/-- `create_charging_icons` (`try.py` lines 341–360): two 80×80 bolts. -/
def tryChargingFiles : List SavedImage :=
  [⟨"charging", "charging.png", 80, 80⟩, ⟨"charging", "discharging.png", 80, 80⟩]

/-- The complete ordered file-output trace of a successful
`AssetGenerator.generate_all()` run. -/
def tryTrace : List SavedImage :=
  tryBackgroundFiles ++ tryLabelFiles ++ tryIndicatorFiles
  ++ tryWarningFiles ++ tryBarFiles ++ tryChargingFiles

/-! ## Run result and exit status of `try.py` (lines 366–420) -/

/-- Outcome of one generation step (`create_background`,
`create_labels`, …): normal completion, or a raised exception carrying
its message. -/
inductive StepOutcome where
  | ok
  | raises (msg : String)
deriving DecidableEq, Repr

/-- Sequential execution of the generation steps inside the `try`
block of `generate_all`: stops at the first raised exception. -/
def runSteps : List StepOutcome → Except String Unit
  | [] => Except.ok ()
  | StepOutcome.ok :: rest => runSteps rest
  | StepOutcome.raises m :: _ => Except.error m

/-- `AssetGenerator.generate_all` (`try.py` lines 366–381): runs the
generation steps; returns `True` when all complete, while the
top-level `except Exception` reports the error and returns `False`. -/
def generate_all (steps : List StepOutcome) : Bool :=
  match runSteps steps with
  | Except.ok _ => true
  | Except.error _ => false

/-- Outcome of constructing the `AssetGenerator` in `main`. -/
inductive SetupOutcome where
  | ok
  | keyboardInterrupt
  | raises (msg : String)
deriving DecidableEq, Repr

/-- `main` (`try.py` lines 405–416): returns `0` iff `generate_all`
returned `True`, `1` when it returned `False` or setup raised, `130`
on `KeyboardInterrupt`; `sys.exit(main())` makes this the process
exit status. -/
def mainExitCode (setup : SetupOutcome) (steps : List StepOutcome) : Int :=
  match setup with
  | SetupOutcome.ok => if generate_all steps then 0 else 1
  | SetupOutcome.keyboardInterrupt => 130
  | SetupOutcome.raises _ => 1

example : mainExitCode .ok [.ok, .ok, .ok, .ok, .ok, .ok] = 0 := by decide
example : mainExitCode .ok [.ok, .raises "boom", .ok] = 1 := by decide

/-! ## Turn indicators (`real2.py` lines 271–308) -/

/-- Indicator direction. -/
inductive TurnDir where
  | left
  | right
deriving DecidableEq, Repr

/-- Arrow polygon of `indicator_animated` (`real2.py` lines 280–283). -/
def indicatorPoints (d : TurnDir) : List (ℤ × ℤ) :=
  match d with
  | .left => [(100, 15), (30, 50), (100, 85), (100, 65), (130, 65), (130, 35), (100, 35)]
  | .right => [(40, 15), (110, 50), (40, 85), (40, 65), (10, 65), (10, 35), (40, 35)]

/-- `brightness = int(255 * (0.3 + 0.7 * (frame / (frames - 1))))`
(`real2.py` line 277).  The division raises `ZeroDivisionError` when
`frames = 1` (modelled as `none`).  Float arithmetic is modelled as
exact fraction arithmetic here: the exact value lies in
`[76.5, 255]`, bounds the binary64 evaluation approaches within
`10 ^ (-12)`, so the truncated integer satisfies the same bounds in
both arithmetics. -/
def brightness (frame frames : Nat) : Option ℤ :=
  (Frac.div (.ofInt frame) (.ofInt ((frames : ℤ) - 1))).map fun x =>
    Frac.trunc (Frac.mul (.ofInt 255)
      (Frac.add ⟨3, 10, by decide⟩ (Frac.mul ⟨7, 10, by decide⟩ x)))

/-- `indicator_animated(direction, frames=3)` (`real2.py` lines
271–287): one frame per loop index, each carrying its brightness and
the arrow polygon; `none` models an uncaught exception. -/
def indicator_animated (direction : TurnDir) (frames : Nat := 3) :
    Option (List (ℤ × List (ℤ × ℤ))) :=
  (List.range frames).mapM fun k =>
    (brightness k frames).map fun b => (b, indicatorPoints direction)

example : brightness 0 3 = some 76 := by decide
example : brightness 1 3 = some 165 := by decide
example : brightness 2 3 = some 255 := by decide
example : brightness 0 1 = none := by decide
example : indicator_animated .left 1 = none := by decide
example : (indicator_animated .right 3).isSome = true := by decide

/-! ## RPM gauge computations (`real2.py` lines 109–148) -/

/-- RPM arc color from `rpm_val = i * 500` (`real2.py` lines 112–123). -/
def rpmColor (i : Nat) : RGB :=
  if i * 500 < 4000 then GREEN else if i * 500 < 6000 then YELLOW else RED

/-- RPM arc sweep angle, `angle = int(270 * i / 16)` (`real2.py`
line 126). -/
def rpmArcAngle (i : Nat) : ℤ :=
  ((pyDiv (.ofInt (270 * i)) (.ofInt 16)).map Frac.trunc).getD 0

example : rpmArcAngle 16 = 270 := by decide

/-! ## The run as a function of its environment -/

/-- Everything a process run could observe from the outside world:
command-line arguments, standard-input contents, environment
variables, and whether the named TrueType font resource is present.
Neither script reads any of the first three. -/
structure Env where
  argv : List String
  stdinData : List String
  envVars : List (String × String)
  fontAvailable : Bool

/-- Every computed drawing parameter of a `real2.py` run: font
handles, the saved-file trace, and the per-frame colors, angles, fill
widths and brightnesses each generation pass computes. -/
structure Real2Run where
  fonts : Except PILError Real2Fonts
  saved : List SavedImage
  speedAngles : List ℤ
  speedColors : List RGB
  rpmAngles : List ℤ
  rpmColors : List RGB
  tempColors : List (Option RGB)
  socWidths : List ℤ
  socColors : List RGB
  socCmds : List (List DrawCmd)
  indicatorBrightness : Option (List (ℤ × List (ℤ × ℤ)))

/-- A complete `real2.py` run.  Every field is computed from hard-coded
constants and loop indices; the environment enters only through the
font-availability check in the `try`/`except` of lines 41–46. -/
def real2Run (env : Env) : Real2Run where
  fonts := loadFontsReal2 env.fontAvailable
  saved := real2Trace
  speedAngles := (List.range 81).map speedArcAngle
  speedColors := (List.range 81).map speedColor
  rpmAngles := (List.range 17).map rpmArcAngle
  rpmColors := (List.range 17).map rpmColor
  tempColors := (List.range 101).map fun t => get_temp_color (t : ℤ) 100
  socWidths := (List.range 101).map socFillWidth
  socColors := (List.range 101).map socFillColor
  socCmds := (List.range 101).map socFrameCmds
  indicatorBrightness := indicator_animated .left 3

/-- A complete `try.py` run: font handles plus the saved-file trace. -/
structure TryRun where
  fonts : Except PILError TryFonts
  saved : List SavedImage

/-- A complete `AssetGenerator` construction plus `generate_all` pass,
as a function of the environment. -/
def tryRun (env : Env) : TryRun where
  fonts := loadFontsTry env.fontAvailable
  saved := tryTrace

/-! ## Helper lemmas -/

/-- Monotonicity on an initial segment follows from the adjacent
steps. -/
theorem mono_of_adjacent {f : ℕ → ℤ} {n : ℕ} (h : ∀ i, i < n → f i ≤ f (i + 1)) :
    ∀ v w, v ≤ w → w ≤ n → f v ≤ f w := by
  intro v w hvw hwn
  induction w with
  | zero =>
    have : v = 0 := Nat.le_zero.mp hvw
    simp [this]
  | succ w ih =>
    rcases Nat.eq_or_lt_of_le hvw with rfl | hlt
    · exact le_refl _
    · have hwn' : w < n := Nat.lt_of_succ_le hwn
      exact le_trans (ih (Nat.lt_succ_iff.mp hlt) (le_of_lt hwn')) (h w hwn')

/-! ## Claims -/

/-- Claim C2: the structured variant's run result maps to the process
exit status as follows: if every generation step completes without
raising, `generate_all` returns `True` and the program exits with
status 0; if any exception is raised during the generation pass, the
top-level catch in `generate_all` reports it and the program exits
with a non-zero status. -/
theorem c2_exit_status :
    (∀ steps : List StepOutcome, runSteps steps = Except.ok () →
      generate_all steps = true ∧ mainExitCode SetupOutcome.ok steps = 0)
    ∧ (∀ steps : List StepOutcome, ∀ m, runSteps steps = Except.error m →
      generate_all steps = false ∧ mainExitCode SetupOutcome.ok steps ≠ 0) := by
  constructor
  · intro steps h
    have hg : generate_all steps = true := by simp [generate_all, h]
    exact ⟨hg, by simp [mainExitCode, hg]⟩
  · intro steps m h
    have hg : generate_all steps = false := by simp [generate_all, h]
    exact ⟨hg, by simp [mainExitCode, hg]⟩

/-- Witness for C2: a run whose six steps all complete exits 0; a run
whose second step raises yields `False` and a non-zero exit. -/
theorem c2_exit_status_witness :
    (generate_all [.ok, .ok, .ok, .ok, .ok, .ok] = true
      ∧ mainExitCode SetupOutcome.ok [.ok, .ok, .ok, .ok, .ok, .ok] = 0)
    ∧ (generate_all [.ok, .raises "cannot write file", .ok] = false
      ∧ mainExitCode SetupOutcome.ok [.ok, .raises "cannot write file", .ok] ≠ 0) :=
  ⟨c2_exit_status.1 [.ok, .ok, .ok, .ok, .ok, .ok] rfl,
   c2_exit_status.2 [.ok, .raises "cannot write file", .ok] "cannot write file" rfl⟩

/-- Claim C3: font loading never aborts the run: if loading the named
TrueType font fails, all font handles are assigned the library's
default bitmap font and generation proceeds, so no font-loading
exception propagates to the caller — in both scripts. -/
theorem c3_font_fallback :
    (∀ avail : Bool, ∃ f, loadFontsReal2 avail = Except.ok f)
    ∧ loadFontsReal2 false = Except.ok ⟨.defaultFont, .defaultFont, .defaultFont⟩
    ∧ (∀ avail : Bool, ∃ f, loadFontsTry avail = Except.ok f)
    ∧ loadFontsTry false = Except.ok ⟨.defaultFont, .defaultFont⟩ := by
  refine ⟨fun avail => ?_, rfl, fun avail => ?_, rfl⟩ <;> cases avail <;> exact ⟨_, rfl⟩

/-- Witness for C3: the fallback instantiated at both availability
values. -/
theorem c3_font_fallback_witness :
    (∃ f, loadFontsReal2 false = Except.ok f) ∧ (∃ f, loadFontsTry false = Except.ok f) :=
  ⟨c3_font_fallback.1 false, c3_font_fallback.2.2.1 false⟩

/-- Counterexample to claim C6: `get_temp_color` does not return a
color for every integer `temp` with nonzero `max_temp`.  At
`temp = 2 ^ 1024`, `max_temp = 1` the quotient exceeds the binary64
range, so CPython's `temp / max_temp` raises `OverflowError` before
any color is selected (modelled as `none`), even though `max_temp`
is nonzero; the same happens at any larger magnitude, e.g.
`temp = 10 ** 400`. -/
theorem c6_overflow_counterexample :
    get_temp_color ((2 ^ 1024 : ℕ) : ℤ) 1 = none ∧ (1 : ℤ) ≠ 0 := by
  decide

/-- Claim C6 as amended: the helper performs no validation of numeric
ranges: for any integer `temp` and any nonzero `max_temp` for which
the float division `temp / max_temp` itself succeeds (CPython raises
`OverflowError` once the correctly rounded quotient reaches magnitude
`2 ^ 1024`), `get_temp_color` returns one of GREEN, YELLOW, or RED
without raising and without checking that `temp` lies in
`[0, max_temp]`; in particular a `temp` above `max_temp` still
yields a color. -/
theorem c6_no_range_validation_amended :
    (∀ temp max_temp : ℤ, max_temp ≠ 0 →
      (pyDiv (Frac.ofInt temp) (Frac.ofInt max_temp)).isSome = true →
      get_temp_color temp max_temp = some GREEN
      ∨ get_temp_color temp max_temp = some YELLOW
      ∨ get_temp_color temp max_temp = some RED)
    ∧ get_temp_color 150 100 = some RED := by
  refine ⟨?_, by decide⟩
  intro temp max_temp h hs
  unfold get_temp_color
  cases hd : pyDiv (.ofInt temp) (.ofInt max_temp) with
  | none =>
    rw [hd] at hs
    simp at hs
  | some ratio =>
    dsimp only
    split_ifs <;> simp

/-- Witness for the amended C6: instantiated at `temp = 150`,
`max_temp = 100` — a temp above max_temp, well inside the float
range. -/
theorem c6_no_range_validation_amended_witness :
    (100 : ℤ) ≠ 0
    ∧ (pyDiv (Frac.ofInt 150) (Frac.ofInt 100)).isSome = true
    ∧ (get_temp_color 150 100 = some GREEN
      ∨ get_temp_color 150 100 = some YELLOW
      ∨ get_temp_color 150 100 = some RED) :=
  ⟨by decide, by decide, c6_no_range_validation_amended.1 150 100 (by decide) (by decide)⟩

/-- Claim C7: the generators read no input: for any two runs with the
same font availability, every computed drawing parameter (colors,
angles, fill widths, filenames, font handles) is identical, since each
is a function only of hard-coded constants and the loop index. -/
theorem c7_no_input_determinism :
    ∀ e1 e2 : Env, e1.fontAvailable = e2.fontAvailable →
      real2Run e1 = real2Run e2 ∧ tryRun e1 = tryRun e2 := by
  intro e1 e2 h
  constructor <;> simp [real2Run, tryRun, h]

/-- Witness for C7: two environments with different argv, stdin and
environment variables but the same font availability produce equal
runs. -/
theorem c7_no_input_determinism_witness :
    (Env.mk ["gen.py"] [] [] true).fontAvailable
      = (Env.mk ["gen.py", "--fast"] ["spurious stdin"] [("LANG", "C")] true).fontAvailable
    ∧ real2Run (Env.mk ["gen.py"] [] [] true)
      = real2Run (Env.mk ["gen.py", "--fast"] ["spurious stdin"] [("LANG", "C")] true)
    ∧ tryRun (Env.mk ["gen.py"] [] [] true)
      = tryRun (Env.mk ["gen.py", "--fast"] ["spurious stdin"] [("LANG", "C")] true) := by
  have h := c7_no_input_determinism (Env.mk ["gen.py"] [] [] true)
    (Env.mk ["gen.py", "--fast"] ["spurious stdin"] [("LANG", "C")] true) rfl
  exact ⟨rfl, h.1, h.2⟩

/-- Claim C8: `get_temp_color` partitions its domain by fixed
thresholds: for every integer `t` in `0..100` with `max_temp = 100`,
it returns GREEN iff `t ≤ 49`, YELLOW iff `50 ≤ t ≤ 74`, and RED iff
`t ≥ 75`, so exactly one of the three colors is returned for each
`t`. -/
theorem c8_temp_thresholds :
    ∀ t : ℕ, t < 101 →
      (get_temp_color (t : ℤ) 100 = some GREEN ↔ t ≤ 49)
      ∧ (get_temp_color (t : ℤ) 100 = some YELLOW ↔ 50 ≤ t ∧ t ≤ 74)
      ∧ (get_temp_color (t : ℤ) 100 = some RED ↔ 75 ≤ t) := by
  decide

/-- Witness for C8: instantiated at `t = 60`. -/
theorem c8_temp_thresholds_witness :
    (60 : ℕ) < 101
    ∧ ((get_temp_color ((60 : ℕ) : ℤ) 100 = some GREEN ↔ (60 : ℕ) ≤ 49)
      ∧ (get_temp_color ((60 : ℕ) : ℤ) 100 = some YELLOW ↔ 50 ≤ (60 : ℕ) ∧ (60 : ℕ) ≤ 74)
      ∧ (get_temp_color ((60 : ℕ) : ℤ) 100 = some RED ↔ 75 ≤ (60 : ℕ))) :=
  ⟨by decide, c8_temp_thresholds 60 (by decide)⟩

/-- Claim C9: the SOC fill bar never escapes its frame: for every
integer `s` in `0..100`, the computed `fill_width` lies in `[0, 200]`,
the fill rectangle `(15, 25, 15 + fill_width, 55)` lies entirely
inside the battery outline rectangle `(10, 20, 220, 60)`, and the
fill is drawn only when `fill_width > 0`. -/
theorem c9_soc_fill_inside_frame :
    ∀ s : ℕ, s < 101 →
      (0 ≤ socFillWidth s ∧ socFillWidth s ≤ 200)
      ∧ ((10 : ℤ) ≤ 15 ∧ (20 : ℤ) ≤ 25 ∧ 15 + socFillWidth s ≤ 220 ∧ (55 : ℤ) ≤ 60)
      ∧ (DrawCmd.rectFill 15 25 (15 + socFillWidth s) 55 (socFillColor s) ∈ socFrameCmds s
          ↔ 0 < socFillWidth s) := by
  decide

/-- Witness for C9: instantiated at `s = 50`. -/
theorem c9_soc_fill_inside_frame_witness :
    (50 : ℕ) < 101
    ∧ ((0 ≤ socFillWidth 50 ∧ socFillWidth 50 ≤ 200)
      ∧ ((10 : ℤ) ≤ 15 ∧ (20 : ℤ) ≤ 25 ∧ 15 + socFillWidth 50 ≤ 220 ∧ (55 : ℤ) ≤ 60)
      ∧ (DrawCmd.rectFill 15 25 (15 + socFillWidth 50) 55 (socFillColor 50) ∈ socFrameCmds 50
          ↔ 0 < socFillWidth 50)) :=
  ⟨by decide, c9_soc_fill_inside_frame 50 (by decide)⟩

/-- The brightness of `indicator_animated` in closed form: for
`frames ≥ 2` the exact value `255 * (3/10 + 7/10 * (k / (frames-1)))`
is the integer division below. -/
theorem brightness_eq (k n : ℕ) (hn : 2 ≤ n) :
    brightness k n
      = some ((255 * (30 * ((n : ℤ) - 1) + 70 * (k : ℤ))) / (100 * ((n : ℤ) - 1))) := by
  have hM : (0 : ℤ) < (n : ℤ) - 1 := by
    have : (2 : ℤ) ≤ (n : ℤ) := by exact_mod_cast hn
    omega
  have hk0 : (0 : ℤ) ≤ (k : ℤ) := Int.natCast_nonneg k
  simp only [brightness, Frac.div, Frac.ofInt, Frac.mul, Frac.add, Frac.trunc,
    dif_neg (ne_of_gt hM), if_neg (lt_asymm hM), Option.map_some']
  rw [if_neg (by push_cast [Int.natAbs_of_nonneg hM.le]; nlinarith)]
  congr 1
  push_cast [Int.natAbs_of_nonneg hM.le]
  ring_nf

/-- Claim C10: `indicator_animated` divides by `frames - 1`, so it
raises a division error when called with `frames = 1`; under the
precondition `frames ≥ 2` (the default is 3), every computed
brightness is an integer in `[76, 255]` and hence a valid `0..255`
color channel for each generated frame. -/
theorem c10_indicator_brightness :
    indicator_animated TurnDir.left 1 = none
    ∧ indicator_animated TurnDir.right 1 = none
    ∧ (indicator_animated TurnDir.left 3).isSome = true
    ∧ (indicator_animated TurnDir.right 3).isSome = true
    ∧ (∀ frames : ℕ, 2 ≤ frames → ∀ frame : ℕ, frame < frames →
        ∃ b : ℤ, brightness frame frames = some b ∧ 76 ≤ b ∧ b ≤ 255) := by
  refine ⟨by decide, by decide, by decide, by decide, ?_⟩
  intro n hn k hk
  have hM : (0 : ℤ) < (n : ℤ) - 1 := by
    have : (2 : ℤ) ≤ (n : ℤ) := by exact_mod_cast hn
    omega
  have hk0 : (0 : ℤ) ≤ (k : ℤ) := Int.natCast_nonneg k
  have hkM : (k : ℤ) ≤ (n : ℤ) - 1 := by
    have : (k : ℤ) < (n : ℤ) := by exact_mod_cast hk
    omega
  have hD : (0 : ℤ) < 100 * ((n : ℤ) - 1) := by linarith
  refine ⟨_, brightness_eq k n hn, ?_, ?_⟩
  · rw [Int.le_ediv_iff_mul_le hD]
    linarith
  · calc (255 * (30 * ((n : ℤ) - 1) + 70 * (k : ℤ))) / (100 * ((n : ℤ) - 1))
        ≤ (255 * (100 * ((n : ℤ) - 1))) / (100 * ((n : ℤ) - 1)) := by
          apply Int.ediv_le_ediv hD
          linarith
      _ = 255 := Int.mul_ediv_cancel _ (ne_of_gt hD)

/-- Witness for C10: instantiated at `frames = 3`, `frame = 1`. -/
theorem c10_indicator_brightness_witness :
    2 ≤ 3 ∧ (1 : ℕ) < 3
    ∧ (∃ b : ℤ, brightness 1 3 = some b ∧ 76 ≤ b ∧ b ≤ 255) :=
  ⟨by decide, by decide, c10_indicator_brightness.2.2.2.2 3 (by decide) 1 (by decide)⟩

/-- Counterexample to claim C4: at `s = 29` the code's SOC fill width,
`int((29/100) * 200)` evaluated in binary64 floating point, is 57,
while `floor(200 * 29 / 100) = 58`: the binary64 value of `29/100` is
slightly below the exact fraction, so the product falls just under 58
and truncation loses one pixel. -/
theorem c4_soc_fill_width_counterexample :
    socFillWidth 29 = 57 ∧ (200 * 29 : ℤ) / 100 = 58 ∧ socFillWidth 29 ≠ (200 * 29 : ℤ) / 100 := by
  decide

/-- Claim C4 as amended: the speed arc sweep angle equals
`floor(270 * v / 80)`, which is 0 at `v = 0`, 270 at `v = 80`, and
monotone non-decreasing over `0..80`; the SOC fill width equals
`floor(200 * s / 100) = 2 s` for every `s` in `0..100` except
`s ∈ {29, 57, 58}`, where binary64 rounding makes it one less; it is
0 at `s = 0`, 200 at `s = 100`, and monotone non-decreasing over
`0..100`. -/
theorem c4_gauge_linearity_amended :
    (∀ v : ℕ, v < 81 → speedArcAngle v = (270 * (v : ℤ)) / 80)
    ∧ speedArcAngle 0 = 0 ∧ speedArcAngle 80 = 270
    ∧ (∀ v w : ℕ, v ≤ w → w ≤ 80 → speedArcAngle v ≤ speedArcAngle w)
    ∧ (∀ s : ℕ, s < 101 → socFillWidth s =
        (if s = 29 ∨ s = 57 ∨ s = 58 then 2 * (s : ℤ) - 1 else 2 * (s : ℤ)))
    ∧ socFillWidth 0 = 0 ∧ socFillWidth 100 = 200
    ∧ (∀ s t : ℕ, s ≤ t → t ≤ 100 → socFillWidth s ≤ socFillWidth t) := by
  have hspeed : ∀ i : ℕ, i < 80 → speedArcAngle i ≤ speedArcAngle (i + 1) := by decide
  have hsoc : ∀ i : ℕ, i < 100 → socFillWidth i ≤ socFillWidth (i + 1) := by decide
  exact ⟨by decide, by decide, by decide,
    mono_of_adjacent hspeed,
    by decide, by decide, by decide,
    mono_of_adjacent hsoc⟩

/-- Witness for the amended C4: the equalities at `v = 40` and
`s = 29`, and the monotonicity instances `10 ≤ 70` and `25 ≤ 75`. -/
theorem c4_gauge_linearity_amended_witness :
    speedArcAngle 40 = (270 * ((40 : ℕ) : ℤ)) / 80
    ∧ speedArcAngle 10 ≤ speedArcAngle 70
    ∧ socFillWidth 29
        = (if (29 : ℕ) = 29 ∨ (29 : ℕ) = 57 ∨ (29 : ℕ) = 58
            then 2 * ((29 : ℕ) : ℤ) - 1 else 2 * ((29 : ℕ) : ℤ))
    ∧ socFillWidth 25 ≤ socFillWidth 75 :=
  ⟨c4_gauge_linearity_amended.1 40 (by decide),
   c4_gauge_linearity_amended.2.2.2.1 10 70 (by decide) (by decide),
   c4_gauge_linearity_amended.2.2.2.2.1 29 (by decide),
   c4_gauge_linearity_amended.2.2.2.2.2.2.2 25 75 (by decide) (by decide)⟩

/-- Claim C1: after a completed run of the main generator, the trace
of written files contains exactly one PNG frame per integer speed
value 0–80 at `dgus_assets/speed/000.png` … `080.png` (the file name
is the value zero-padded to three digits): the speed-folder files, in
save order, are precisely `000.png` … `080.png` with no duplicates.
The trace further holds 17 RPM frames, 101 frames in each of the
three temperature folders, 101 SOC frames, 101 `battery_vi` frames,
151 `motor_vi` frames, 5 charging images, 8 indicator images, and 5
warning icons. -/
theorem c1_output_manifest :
    ((real2Trace.filter fun f => f.folder == "speed").map (fun f => f.file)
        = (List.range 81).map fun v => zfill 3 v ++ ".png")
    ∧ (((List.range 81).map fun v => zfill 3 v ++ ".png").Nodup)
    ∧ SavedImage.path ⟨"speed", zfill 3 0 ++ ".png", 200, 200⟩ = "dgus_assets/speed/000.png"
    ∧ SavedImage.path ⟨"speed", zfill 3 80 ++ ".png", 200, 200⟩ = "dgus_assets/speed/080.png"
    ∧ (real2Trace.countP fun f => f.folder == "speed") = 81
    ∧ (real2Trace.countP fun f => f.folder == "rpm") = 17
    ∧ (real2Trace.countP fun f => f.folder == "temp_motor") = 101
    ∧ (real2Trace.countP fun f => f.folder == "temp_controller") = 101
    ∧ (real2Trace.countP fun f => f.folder == "temp_battery") = 101
    ∧ (real2Trace.countP fun f => f.folder == "soc") = 101
    ∧ (real2Trace.countP fun f => f.folder == "battery_vi") = 101
    ∧ (real2Trace.countP fun f => f.folder == "motor_vi") = 151
    ∧ (real2Trace.countP fun f => f.folder == "charging") = 5
    ∧ (real2Trace.countP fun f => f.folder == "indicators") = 8
    ∧ (real2Trace.countP fun f => f.folder == "warnings") = 5 := by
  decide

/-- Claim C5: every generated image has pixel dimensions equal to the
declared canvas size for its asset class: each speed and RPM frame is
200×200, each temperature-bar frame is 80×220, each SOC frame is
240×80, and the structured variant's background is 1024×600. -/
theorem c5_canvas_dimensions :
    ((real2Trace.filter fun f => f.folder == "speed" || f.folder == "rpm").all
        fun f => f.width == 200 && f.height == 200) = true
    ∧ ((real2Trace.filter fun f =>
          f.folder == "temp_motor" || f.folder == "temp_controller"
            || f.folder == "temp_battery").all
        fun f => f.width == 80 && f.height == 220) = true
    ∧ ((real2Trace.filter fun f => f.folder == "soc").all
        fun f => f.width == 240 && f.height == 80) = true
    ∧ ((tryTrace.filter fun f => f.folder == "background").all
        fun f => f.width == 1024 && f.height == 600) = true
    ∧ (⟨"background", "dashboard_bg.png", 1024, 600⟩ : SavedImage) ∈ tryTrace := by
  decide
